import Mathlib

/-!
Shallow embedding of the cart, coupon, product and order logic of the
EcommerceWebsiteProject repository (Mongoose models in src/Cart.js,
src/Coupon.js, the Product schema, src/Order.js, and the request handlers
in src/cart.controller.js, src/order.controller.js and the product
controller).  JavaScript numbers are modelled as rationals, ids as
naturals, dates as integer timestamps.  All functions are direct
translations of the source methods.
-/

namespace ECom

/-- Discount type enumeration of the Mongoose schemas: percentage | fixed. -/
inductive DiscountType where
  | percentage
  | fixed
deriving DecidableEq, Repr

/-- One cart line item (cartItemSchema in src/Cart.js): subdocument id,
product reference, SKU, quantity and unit price. -/
structure CartItem where
  id : Nat
  product : Nat
  sku : String
  quantity : Int
  price : Rat
deriving DecidableEq, Repr

/-- The coupon subdocument stored on a cart (cartSchema.coupon in
src/Cart.js): code (null when absent), discount value and discount type. -/
structure CartCoupon where
  code : Option String
  discount : Rat
  discountType : DiscountType
deriving DecidableEq, Repr

/-- A cart (cartSchema in src/Cart.js): the line items, the applied coupon
and the stored computed totals. -/
structure Cart where
  items : List CartItem
  coupon : CartCoupon
  subtotal : Rat
  discount : Rat
  tax : Rat
  shipping : Rat
  total : Rat
deriving DecidableEq, Repr

/-- Sum of price times quantity over the items, as the reduce in
calculateTotals (src/Cart.js line 88). -/
def cartSubtotal (items : List CartItem) : Rat :=
  items.foldl (fun sum item => sum + item.price * (item.quantity : Rat)) 0

/-- The calculateTotals method (src/Cart.js lines 86 to 111): recomputes
subtotal, discount, tax, shipping and total in place. -/
def Cart.calculateTotals (c : Cart) : Cart :=
  let subtotal := cartSubtotal c.items
  let discount :=
    match c.coupon.code with
    | some _ =>
      match c.coupon.discountType with
      | DiscountType.percentage => subtotal * c.coupon.discount / 100
      | DiscountType.fixed => c.coupon.discount
    | none => 0
  let tax := (subtotal - discount) * 0.08
  let shipping := if subtotal > 50 then 0 else 5.99
  { c with
    subtotal := subtotal
    discount := discount
    tax := tax
    shipping := shipping
    total := subtotal - discount + tax + shipping }

/-- An inventory record of a product (the inventory array of the Product
schema): SKU and on-hand quantity. -/
structure InventoryRecord where
  sku : String
  quantity : Int
deriving DecidableEq, Repr

/-- A product (Product schema): id, price, inventory records, the cached
totalQuantity and the sales counter. -/
structure Product where
  id : Nat
  price : Rat
  inventory : List InventoryRecord
  totalQuantity : Int
  salesCount : Int
deriving DecidableEq, Repr

/-- Update of the first item matching product id and SKU, else push of a
new item, as findIndex plus push in addItem (src/Cart.js lines 115 to 134). -/
def addToItems (items : List CartItem) (pid : Nat) (sku : String)
    (qty : Int) (price : Rat) (newId : Nat) : List CartItem :=
  match items with
  | [] => [⟨newId, pid, sku, qty, price⟩]
  | item :: rest =>
    if item.product = pid ∧ item.sku = sku then
      { item with quantity := item.quantity + qty } :: rest
    else
      item :: addToItems rest pid sku qty price newId

/-- The addItem method (src/Cart.js lines 114 to 138): merges into an
existing line or pushes a new one priced at product.price, then recomputes
totals (calculateTotals, and again via the pre-save hook). -/
def Cart.addItem (c : Cart) (product : Product) (sku : String)
    (quantity : Int) (newId : Nat) : Cart :=
  ({ c with
    items := addToItems c.items product.id sku quantity product.price newId
    } : Cart).calculateTotals

/-- Removal of the items with the given subdocument id, as items.pull. -/
def pullItem (items : List CartItem) (itemId : Nat) : List CartItem :=
  items.filter (fun item => item.id ≠ itemId)

/-- Overwrite of the quantity of the item with the given id. -/
def setItemQuantity (items : List CartItem) (itemId : Nat) (qty : Int) :
    List CartItem :=
  items.map (fun item =>
    if item.id = itemId then { item with quantity := qty } else item)

/-- The updateItemQuantity method (src/Cart.js lines 141 to 153): when the
item exists, pulls it for a nonpositive quantity or overwrites the
quantity, recomputes totals and saves; otherwise returns null. -/
def Cart.updateItemQuantity (c : Cart) (itemId : Nat) (qty : Int) :
    Option Cart :=
  match c.items.find? (fun item => item.id = itemId) with
  | some _ =>
    if qty ≤ 0 then
      some (({ c with items := pullItem c.items itemId } : Cart).calculateTotals)
    else
      some (({ c with items := setItemQuantity c.items itemId qty } : Cart).calculateTotals)
  | none => none

/-- The removeItem method (src/Cart.js lines 156 to 160). -/
def Cart.removeItem (c : Cart) (itemId : Nat) : Cart :=
  ({ c with items := pullItem c.items itemId } : Cart).calculateTotals

/-- The clearCart method (src/Cart.js lines 163 to 168): empties the items,
resets the coupon and recomputes. -/
def Cart.clearCart (c : Cart) : Cart :=
  ({ c with
    items := []
    coupon := ⟨none, 0, DiscountType.percentage⟩ } : Cart).calculateTotals

/-- The applyCoupon method (src/Cart.js lines 171 to 175): stores the coupon
fields and recomputes. -/
def Cart.applyCoupon (c : Cart) (code : Option String) (discount : Rat)
    (discountType : DiscountType) : Cart :=
  ({ c with coupon := ⟨code, discount, discountType⟩ } : Cart).calculateTotals

/-- The removeCoupon method (src/Cart.js lines 178 to 182). -/
def Cart.removeCoupon (c : Cart) : Cart :=
  ({ c with coupon := ⟨none, 0, DiscountType.percentage⟩ } : Cart).calculateTotals

/-- Scope enumeration of the coupon schema applyTo field:
all | products | categories. -/
inductive ApplyTo where
  | all
  | products
  | categories
deriving DecidableEq, Repr

/-- One entry of the usedBy array of the coupon schema: user reference and
per-user usage count. -/
structure UsageEntry where
  user : Nat
  count : Nat
deriving DecidableEq, Repr

/-- A coupon (couponSchema in src/Coupon.js).  The nullable numeric fields
maximumDiscount, usageLimit.total and usageLimit.perUser are options. -/
structure Coupon where
  code : String
  discountType : DiscountType
  discountValue : Rat
  minimumPurchase : Rat
  maximumDiscount : Option Rat
  usageLimitTotal : Option Nat
  usageLimitPerUser : Option Nat
  usageCount : Nat
  usedBy : List UsageEntry
  applicableProducts : List Nat
  applicableCategories : List Nat
  startDate : Int
  endDate : Int
  isActive : Bool
  applyTo : ApplyTo
deriving DecidableEq, Repr

/-- Result shape of the isValid and canUserUse checks: ok, or a failure
with the reason string the method returns. -/
inductive CheckResult where
  | ok
  | fail (reason : String)
deriving DecidableEq, Repr

/-- The isValid method (src/Coupon.js lines 112 to 123).  The clock is an
explicit argument.  The usage-limit branch mirrors the JavaScript
truthiness test on usageLimit.total: a null or zero limit skips the check. -/
def Coupon.isValid (c : Coupon) (now : Int) : CheckResult :=
  if c.isActive = false then CheckResult.fail "Coupon is inactive"
  else if now < c.startDate then CheckResult.fail "Coupon not yet active"
  else if now > c.endDate then CheckResult.fail "Coupon has expired"
  else
    match c.usageLimitTotal with
    | some t =>
      if t ≠ 0 ∧ t ≤ c.usageCount then CheckResult.fail "Usage limit reached"
      else CheckResult.ok
    | none => CheckResult.ok

/-- The canUserUse method (src/Coupon.js lines 126 to 136): with a truthy
per-user limit, fails when the user has a usedBy entry whose count has
reached the limit. -/
def Coupon.canUserUse (c : Coupon) (userId : Nat) : CheckResult :=
  match c.usageLimitPerUser with
  | some l =>
    if l ≠ 0 then
      match c.usedBy.find? (fun e => e.user = userId) with
      | some e =>
        if l ≤ e.count then CheckResult.fail "Per-user limit reached"
        else CheckResult.ok
      | none => CheckResult.ok
    else CheckResult.ok
  | none => CheckResult.ok

/-- Result of calculateDiscount: not applicable with a reason, or the
rounded discount together with the final total the method reports. -/
inductive DiscountResult where
  | notApplicable (reason : String)
  | applicable (discount : Rat) (finalTotal : Rat)
deriving DecidableEq, Repr

/-- Rounding to cents as Math.round(x * 100) / 100, with Math.round
modelled as the floor of x + one half. -/
def roundCents (x : Rat) : Rat :=
  ((⌊x * 100 + 1/2⌋ : Int) : Rat) / 100

/-- Raw percentage discount of calculateDiscount (src/Coupon.js lines 169
to 173): subtotal times discountValue over 100, capped at maximumDiscount
when that field is truthy (set and nonzero). -/
def Coupon.percentageDiscount (c : Coupon) (subtotal : Rat) : Rat :=
  match c.maximumDiscount with
  | some m =>
    if m ≠ 0 then min (subtotal * c.discountValue / 100) m
    else subtotal * c.discountValue / 100
  | none => subtotal * c.discountValue / 100

/-- Raw discount of calculateDiscount before rounding (src/Coupon.js lines
168 to 176). -/
def Coupon.rawDiscount (c : Coupon) (subtotal : Rat) : Rat :=
  match c.discountType with
  | DiscountType.percentage => c.percentageDiscount subtotal
  | DiscountType.fixed => c.discountValue

/-- The calculateDiscount method (src/Coupon.js lines 139 to 183).  The
scope checks only fire when the corresponding allow-list is nonempty; the
returned discount is rounded to cents while finalTotal uses the raw
discount, both as in the source. -/
def Coupon.calculateDiscount (c : Coupon) (subtotal : Rat)
    (productIds : List Nat) (categoryIds : List Nat) : DiscountResult :=
  if c.applyTo = ApplyTo.products ∧ c.applicableProducts ≠ [] ∧
      ¬ productIds.any (fun i => c.applicableProducts.contains i) then
    DiscountResult.notApplicable "Coupon not applicable to these products"
  else if c.applyTo = ApplyTo.categories ∧ c.applicableCategories ≠ [] ∧
      ¬ categoryIds.any (fun i => c.applicableCategories.contains i) then
    DiscountResult.notApplicable "Coupon not applicable to these categories"
  else if subtotal < c.minimumPurchase then
    DiscountResult.notApplicable
      ("Minimum purchase of $" ++ toString c.minimumPurchase ++ " required")
  else
    DiscountResult.applicable (roundCents (c.rawDiscount subtotal))
      (subtotal - c.rawDiscount subtotal)

/-- The recordUsage upsert on the usedBy array (src/Coupon.js lines 189 to
195): increment the count of the first entry of the user, else append an
entry with count one. -/
def upsertUsage (entries : List UsageEntry) (userId : Nat) : List UsageEntry :=
  match entries with
  | [] => [⟨userId, 1⟩]
  | e :: rest =>
    if e.user = userId then { e with count := e.count + 1 } :: rest
    else e :: upsertUsage rest userId

/-- The recordUsage method (src/Coupon.js lines 186 to 198): increments
usageCount and upserts the per-user entry. -/
def Coupon.recordUsage (c : Coupon) (userId : Nat) : Coupon :=
  { c with
    usageCount := c.usageCount + 1
    usedBy := upsertUsage c.usedBy userId }

/-- Sum of the per-user usage counts. -/
def usageSum : List UsageEntry → Nat
  | [] => 0
  | e :: rest => e.count + usageSum rest

/-- Sum of the record quantities of an inventory list, as the reduce the
Product code uses to recompute totalQuantity. -/
def invTotal (inv : List InventoryRecord) : Int :=
  inv.foldl (fun s r => s + r.quantity) 0

/-- Mutation of the quantity of the first record with the given SKU, as
assignment through the reference inventory.find returns. -/
def setFirstSku (inv : List InventoryRecord) (sku : String) (f : Int → Int) :
    List InventoryRecord :=
  match inv with
  | [] => []
  | r :: rest =>
    if r.sku = sku then { r with quantity := f r.quantity } :: rest
    else r :: setFirstSku rest sku f

/-- Quantity of the first inventory record with the given SKU. -/
def findSkuQty (p : Product) (sku : String) : Option Int :=
  (p.inventory.find? (fun r => r.sku = sku)).map (fun r => r.quantity)

/-- The updateStock method of the Product schema (decrement after
purchase): when the SKU exists, floors the new quantity at zero and
recomputes totalQuantity as the inventory sum; otherwise does nothing. -/
def Product.updateStock (p : Product) (sku : String) (quantity : Int) :
    Product :=
  match p.inventory.find? (fun r => r.sku = sku) with
  | some _ =>
    let inv := setFirstSku p.inventory sku (fun q => max 0 (q - quantity))
    { p with inventory := inv, totalQuantity := invTotal inv }
  | none => p

/-- The admin stock update handler (updateStock in the product controller):
404 when the product or the SKU is missing, otherwise overwrites the SKU
quantity with the given value and recomputes totalQuantity as the sum. -/
def adminUpdateStock (p : Product) (sku : String) (quantity : Int) :
    Option Product :=
  match p.inventory.find? (fun r => r.sku = sku) with
  | some _ =>
    let inv := setFirstSku p.inventory sku (fun _ => quantity)
    some { p with inventory := inv, totalQuantity := invTotal inv }
  | none => none

/-- The per-product restore step of cancelOrder
(src/order.controller.js lines 210 to 216): when the SKU exists, adds the
item quantity back, recomputes totalQuantity as the sum and decrements
salesCount; when it does not, the product is left untouched. -/
def restoreProductStock (p : Product) (sku : String) (quantity : Int) :
    Product :=
  match p.inventory.find? (fun r => r.sku = sku) with
  | some _ =>
    let inv := setFirstSku p.inventory sku (fun q => q + quantity)
    { p with
      inventory := inv
      totalQuantity := invTotal inv
      salesCount := p.salesCount - quantity }
  | none => p

/-- Order status enumeration of the Order schema. -/
inductive OrderStatus where
  | pending
  | processing
  | shipped
  | delivered
  | cancelled
  | refunded
deriving DecidableEq, Repr

/-- Display name of an order status, for the error message interpolation. -/
def statusName : OrderStatus → String
  | OrderStatus.pending => "pending"
  | OrderStatus.processing => "processing"
  | OrderStatus.shipped => "shipped"
  | OrderStatus.delivered => "delivered"
  | OrderStatus.cancelled => "cancelled"
  | OrderStatus.refunded => "refunded"

/-- One order line item: product reference, SKU and quantity. -/
structure OrderItem where
  product : Nat
  sku : String
  quantity : Int
deriving DecidableEq, Repr

/-- One timeline entry of an order. -/
structure TimelineEntry where
  status : OrderStatus
  description : String
  updatedBy : Option Nat
deriving DecidableEq, Repr

/-- An order (Order schema in src/Order.js), restricted to the fields the
cancellation path touches. -/
structure Order where
  status : OrderStatus
  items : List OrderItem
  timeline : List TimelineEntry
deriving DecidableEq, Repr

/-- The cancel method (src/Order.js lines 235 to 244): sets the status to
cancelled and appends one timeline entry. -/
def Order.cancel (o : Order) (reason : String) (updatedBy : Nat) : Order :=
  { o with
    status := OrderStatus.cancelled
    timeline := o.timeline ++
      [⟨OrderStatus.cancelled, "Order cancelled. Reason: " ++ reason,
        some updatedBy⟩] }

/-- Lookup of a product by id, as Product.findById over the collection. -/
def lookupProduct (products : List Product) (pid : Nat) : Option Product :=
  products.find? (fun p => p.id = pid)

/-- Read-modify-save of the product findById returns: the first product
with the given id is replaced by its image under f. -/
def updateById (products : List Product) (pid : Nat) (f : Product → Product) :
    List Product :=
  match products with
  | [] => []
  | p :: rest =>
    if p.id = pid then f p :: rest
    else p :: updateById rest pid f

/-- The restore loop of cancelOrder (src/order.controller.js lines 207 to
218), one fold step per order item; a missing product id leaves the
collection unchanged because updateById finds nothing to replace. -/
def restoreAll (products : List Product) (items : List OrderItem) :
    List Product :=
  items.foldl
    (fun ps item =>
      updateById ps item.product
        (fun p => restoreProductStock p item.sku item.quantity))
    products

/-- Outcome of the cancelOrder handler: success flag, response message, and
the resulting product collection and order. -/
structure CancelOutcome where
  ok : Bool
  message : String
  products : List Product
  order : Order
deriving DecidableEq, Repr

/-- The cancelOrder handler (src/order.controller.js lines 183 to 227),
after the ownership lookup: a 400 with no mutation unless the status is
pending or processing; otherwise the stock restore loop followed by the
cancel method of the order. -/
def cancelOrder (products : List Product) (o : Order) (reason : String)
    (userId : Nat) : CancelOutcome :=
  if o.status = OrderStatus.pending ∨ o.status = OrderStatus.processing then
    { ok := true
      message := "Order cancelled successfully"
      products := restoreAll products o.items
      order := o.cancel reason userId }
  else
    { ok := false
      message := "Cannot cancel order with status: " ++ statusName o.status
      products := products
      order := o }

/-- Outcome of the applyCoupon handler: success flag, response message and
the resulting cart. -/
structure ApplyOutcome where
  ok : Bool
  message : String
  cart : Cart
deriving DecidableEq, Repr

/-- The applyCoupon handler (src/cart.controller.js lines 218 to 296) after
the cart lookup: rejects an empty cart, then an unknown code, then runs
isValid, canUserUse and calculateDiscount in that order, each failure
returning its reason with the cart untouched; on success stores code,
discountValue and discountType on the cart and saves, the pre-save hook
recomputing the totals. -/
def applyCouponController (cart : Cart) (coupon : Option Coupon)
    (userId : Nat) (now : Int) : ApplyOutcome :=
  if cart.items = [] then
    ⟨false, "Cannot apply coupon to empty cart", cart⟩
  else
    match coupon with
    | none => ⟨false, "Invalid coupon code", cart⟩
    | some c =>
      match c.isValid now with
      | CheckResult.fail r => ⟨false, r, cart⟩
      | CheckResult.ok =>
        match c.canUserUse userId with
        | CheckResult.fail r => ⟨false, r, cart⟩
        | CheckResult.ok =>
          match c.calculateDiscount cart.subtotal
              (cart.items.map (fun i => i.product)) [] with
          | DiscountResult.notApplicable r => ⟨false, r, cart⟩
          | DiscountResult.applicable _ _ =>
            ⟨true, "Coupon applied successfully",
              ({ cart with
                coupon := ⟨some c.code, c.discountValue, c.discountType⟩
                } : Cart).calculateTotals⟩

/-- The stored-totals identity the spec demands of every cart state: the
subtotal is the sum of price times quantity over the items and the total
is subtotal minus discount plus tax plus shipping. -/
def totalsInvariant (c : Cart) : Prop :=
  c.subtotal = cartSubtotal c.items ∧
  c.total = c.subtotal - c.discount + c.tax + c.shipping

theorem calculateTotals_totalsInvariant (c : Cart) :
    totalsInvariant c.calculateTotals :=
  ⟨rfl, rfl⟩

/-- Sample line item used for concrete witnesses. -/
def sampleItem : CartItem := ⟨1, 7, "SKU1", 2, 20⟩

/-- Sample cart with one line item and no coupon. -/
def sampleCart : Cart :=
  ⟨[sampleItem], ⟨none, 0, DiscountType.percentage⟩, 0, 0, 0, 0, 0⟩

/-- C1: every mutating cart operation (addItem, updateItemQuantity,
removeItem, clearCart, applyCoupon, removeCoupon) recomputes the stored
totals, so the resulting cart always satisfies
total = subtotal - discount + tax + shipping. -/
theorem cart_totals_recomputed_on_every_mutation
    (c : Cart) (p : Product) (sku : String) (q : Int) (newId itemId : Nat)
    (qty : Int) (code : Option String) (d : Rat) (dt : DiscountType) :
    totalsInvariant (c.addItem p sku q newId) ∧
    (∀ c', c.updateItemQuantity itemId qty = some c' → totalsInvariant c') ∧
    totalsInvariant (c.removeItem itemId) ∧
    totalsInvariant c.clearCart ∧
    totalsInvariant (c.applyCoupon code d dt) ∧
    totalsInvariant c.removeCoupon := by
  refine ⟨calculateTotals_totalsInvariant _, ?_,
    calculateTotals_totalsInvariant _, calculateTotals_totalsInvariant _,
    calculateTotals_totalsInvariant _, calculateTotals_totalsInvariant _⟩
  intro c' h
  unfold Cart.updateItemQuantity at h
  split at h
  · split at h <;>
      exact Option.some.inj h ▸ calculateTotals_totalsInvariant _
  · exact absurd h (by simp)

/-- Witness for C1 at a concrete cart: the quantity update of the only
line item succeeds and the updated cart satisfies the totals identity. -/
theorem cart_totals_recomputed_witness :
    totalsInvariant
      (({ sampleCart with items := setItemQuantity sampleCart.items 1 3 }
        : Cart).calculateTotals) :=
  (cart_totals_recomputed_on_every_mutation sampleCart
      ⟨7, 20, [], 0, 0⟩ "SKU1" 1 2 1 3 none 0 DiscountType.percentage).2.1 _
    (by simp [Cart.updateItemQuantity, sampleCart, sampleItem])

/-- Concrete cart of the pricing scenario: two items at price 20 quantity 2
and price 15 quantity 1, with a 10 percent coupon and no cap. -/
def twoItemCart : Cart :=
  ⟨[⟨1, 101, "A", 2, 20⟩, ⟨2, 102, "B", 1, 15⟩],
    ⟨some "SAVE10", 10, DiscountType.percentage⟩, 0, 0, 0, 0, 0⟩

/-- Counterexample for C3: on the scenario cart the recomputation does not
give shipping 5.99 and total 59.45, because the raw subtotal 55 exceeds the
free-shipping threshold 50. -/
theorem two_item_ten_percent_claim_false :
    ¬ (twoItemCart.calculateTotals.shipping = 5.99 ∧
        twoItemCart.calculateTotals.total = 59.45) := by
  intro h
  have h1 := h.1
  norm_num [twoItemCart, Cart.calculateTotals, cartSubtotal] at h1

/-- C3 amended: the scenario cart yields subtotal 55, discount 5.50 and
tax 3.96 as claimed, but the free-shipping test subtotal greater than 50
passes at 55, so shipping is 0 and the total is 53.46. -/
theorem two_item_ten_percent_totals :
    twoItemCart.calculateTotals.subtotal = 55 ∧
    twoItemCart.calculateTotals.discount = 5.5 ∧
    twoItemCart.calculateTotals.tax = 3.96 ∧
    twoItemCart.calculateTotals.shipping = 0 ∧
    twoItemCart.calculateTotals.total = 53.46 := by
  norm_num [twoItemCart, Cart.calculateTotals, cartSubtotal]

/-- C9: after clearCart, and likewise for any stored cart with no items and
no coupon code, the recomputed fields are subtotal 0, discount 0, tax 0,
shipping 5.99 and total 5.99: an empty cart totals the flat shipping fee
because the free-shipping test subtotal greater than 50 fails at 0. -/
theorem empty_cart_total_is_flat_fee (c c2 : Cart)
    (h1 : c2.items = []) (h2 : c2.coupon.code = none) :
    (c.clearCart.subtotal = 0 ∧ c.clearCart.discount = 0 ∧
      c.clearCart.tax = 0 ∧ c.clearCart.shipping = 5.99 ∧
      c.clearCart.total = 5.99) ∧
    (c2.calculateTotals.subtotal = 0 ∧ c2.calculateTotals.discount = 0 ∧
      c2.calculateTotals.tax = 0 ∧ c2.calculateTotals.shipping = 5.99 ∧
      c2.calculateTotals.total = 5.99) := by
  constructor
  · norm_num [Cart.clearCart, Cart.calculateTotals, cartSubtotal]
  · norm_num [Cart.calculateTotals, cartSubtotal, h1, h2]

/-- Witness for C9 at a concrete empty cart. -/
theorem empty_cart_total_witness :
    (⟨[], ⟨none, 0, DiscountType.percentage⟩, 0, 0, 0, 0, 0⟩
        : Cart).calculateTotals.total = 5.99 :=
  (empty_cart_total_is_flat_fee sampleCart
    ⟨[], ⟨none, 0, DiscountType.percentage⟩, 0, 0, 0, 0, 0⟩
    rfl rfl).2.2.2.2.2

theorem usageSum_upsert (entries : List UsageEntry) (userId : Nat) :
    usageSum (upsertUsage entries userId) = usageSum entries + 1 := by
  induction entries with
  | nil => rfl
  | cons e rest ih =>
    by_cases h : e.user = userId
    · simp [upsertUsage, h, usageSum]
      omega
    · simp [upsertUsage, h, usageSum, ih]
      omega

theorem upsertUsage_absent (entries : List UsageEntry) (userId : Nat)
    (h : ∀ e ∈ entries, e.user ≠ userId) :
    upsertUsage entries userId = entries ++ [⟨userId, 1⟩] := by
  induction entries with
  | nil => rfl
  | cons e rest ih =>
    have he : e.user ≠ userId := h e (List.mem_cons_self e rest)
    simp [upsertUsage, he]
    exact ih (fun x hx => h x (List.mem_cons_of_mem e hx))

theorem upsertUsage_present (pre post : List UsageEntry) (e : UsageEntry)
    (userId : Nat) (hpre : ∀ x ∈ pre, x.user ≠ userId)
    (he : e.user = userId) :
    upsertUsage (pre ++ e :: post) userId =
      pre ++ { e with count := e.count + 1 } :: post := by
  induction pre with
  | nil => simp [upsertUsage, he]
  | cons p rest ih =>
    have hp : p.user ≠ userId := hpre p (List.mem_cons_self p rest)
    have h2 := ih (fun x hx => hpre x (List.mem_cons_of_mem p hx))
    simp [upsertUsage, hp, h2]

/-- C7: recordUsage increments usageCount by one and upserts the entry of
the user (appending a count-one entry when absent, incrementing the first
matching entry when present), so the invariant usageCount equals the sum
of the per-user counts is preserved. -/
theorem recordUsage_spec (c : Coupon) (userId : Nat)
    (hinv : c.usageCount = usageSum c.usedBy) :
    (c.recordUsage userId).usageCount = c.usageCount + 1 ∧
    ((∀ e ∈ c.usedBy, e.user ≠ userId) →
      (c.recordUsage userId).usedBy = c.usedBy ++ [⟨userId, 1⟩]) ∧
    (∀ pre e post, c.usedBy = pre ++ e :: post →
      (∀ x ∈ pre, x.user ≠ userId) → e.user = userId →
      (c.recordUsage userId).usedBy =
        pre ++ { e with count := e.count + 1 } :: post) ∧
    (c.recordUsage userId).usageCount =
      usageSum (c.recordUsage userId).usedBy := by
  refine ⟨rfl, ?_, ?_, ?_⟩
  · intro h
    simp [Coupon.recordUsage, upsertUsage_absent c.usedBy userId h]
  · intro pre e post hsplit hpre he
    simp [Coupon.recordUsage, hsplit, upsertUsage_present pre post e userId hpre he]
  · simp [Coupon.recordUsage, usageSum_upsert, hinv]

/-- Sample coupon for the witnesses: fresh, unlimited, active from time 0
to time 100. -/
def sampleCoupon : Coupon :=
  { code := "WELCOME"
    discountType := DiscountType.percentage
    discountValue := 10
    minimumPurchase := 0
    maximumDiscount := none
    usageLimitTotal := none
    usageLimitPerUser := none
    usageCount := 0
    usedBy := []
    applicableProducts := []
    applicableCategories := []
    startDate := 0
    endDate := 100
    isActive := true
    applyTo := ApplyTo.all }

/-- Witness for C7 on a fresh coupon: one recorded usage yields count one
and the invariant holds. -/
theorem recordUsage_witness :
    (sampleCoupon.recordUsage 4).usageCount = 1 ∧
    (sampleCoupon.recordUsage 4).usageCount =
      usageSum (sampleCoupon.recordUsage 4).usedBy :=
  ⟨(recordUsage_spec sampleCoupon 4 rfl).1,
    (recordUsage_spec sampleCoupon 4 rfl).2.2.2⟩

/-- C10: a stored total usage limit of zero is falsy in the isValid check,
so the coupon validates regardless of usageCount, and a per-user limit of
zero is likewise treated as unlimited by canUserUse; zero is an accepted
stored value for both limit fields. -/
theorem zero_usage_limits_unlimited (c : Coupon) (userId : Nat) (now : Int)
    (ht : c.usageLimitTotal = some 0) (hp : c.usageLimitPerUser = some 0)
    (ha : c.isActive = true) (hs : c.startDate ≤ now) (he : now ≤ c.endDate) :
    c.isValid now = CheckResult.ok ∧ c.canUserUse userId = CheckResult.ok := by
  constructor
  · unfold Coupon.isValid
    rw [ht, ha]
    simp [not_lt.mpr hs, not_lt.mpr he]
  · unfold Coupon.canUserUse
    rw [hp]
    simp

/-- Coupon with both usage limits stored as zero, already used five times
in total and three times by user 1. -/
def zeroLimitCoupon : Coupon :=
  { sampleCoupon with
    usageLimitTotal := some 0
    usageLimitPerUser := some 0
    usageCount := 5
    usedBy := [⟨1, 3⟩] }

/-- Witness for C10: the zero-limit coupon with prior usage validates and
is usable by the already-recorded user. -/
theorem zero_usage_limits_witness :
    zeroLimitCoupon.isValid 10 = CheckResult.ok ∧
    zeroLimitCoupon.canUserUse 1 = CheckResult.ok :=
  zero_usage_limits_unlimited zeroLimitCoupon 1 10 rfl rfl rfl
    (by norm_num [zeroLimitCoupon, sampleCoupon])
    (by norm_num [zeroLimitCoupon, sampleCoupon])

theorem foldl_price_nonneg (items : List CartItem) (a : Rat) (ha : 0 ≤ a)
    (h : ∀ i ∈ items, 0 ≤ i.price ∧ 0 ≤ i.quantity) :
    0 ≤ items.foldl (fun sum item => sum + item.price * (item.quantity : Rat)) a := by
  induction items generalizing a with
  | nil => simpa using ha
  | cons i rest ih =>
    simp only [List.foldl_cons]
    refine ih _ ?_ (fun x hx => h x (List.mem_cons_of_mem i hx))
    have hi := h i (List.mem_cons_self i rest)
    have hq : (0 : Rat) ≤ (i.quantity : Rat) := by exact_mod_cast hi.2
    have := mul_nonneg hi.1 hq
    linarith

theorem cartSubtotal_nonneg (items : List CartItem)
    (h : ∀ i ∈ items, 0 ≤ i.price ∧ 0 ≤ i.quantity) :
    0 ≤ cartSubtotal items :=
  foldl_price_nonneg items 0 le_rfl h

/-- Cart with one ten-dollar item and consistent stored totals. -/
def tenDollarCart : Cart :=
  ⟨[⟨1, 5, "A", 1, 10⟩], ⟨none, 0, DiscountType.percentage⟩,
    10, 0, 0.8, 5.99, 16.79⟩

/-- Fixed coupon worth fifty dollars with no minimum purchase. -/
def flatFiftyCoupon : Coupon :=
  { sampleCoupon with
    code := "FLAT50"
    discountType := DiscountType.fixed
    discountValue := 50 }

/-- Counterexample for C4: the coupon evaluator accepts a fifty-dollar
fixed coupon on a ten-dollar cart (the discount is not capped at the
subtotal), and the resulting cart tax (10 - 50) times 0.08 is negative. -/
theorem fixed_coupon_negative_tax :
    (applyCouponController tenDollarCart (some flatFiftyCoupon) 1 50).ok
      = true ∧
    (applyCouponController tenDollarCart (some flatFiftyCoupon) 1 50).cart.tax
      < 0 := by
  norm_num [applyCouponController, tenDollarCart, flatFiftyCoupon,
    sampleCoupon, Coupon.isValid, Coupon.canUserUse, Coupon.calculateDiscount,
    Coupon.rawDiscount, Coupon.percentageDiscount, roundCents,
    Cart.calculateTotals, cartSubtotal]

/-- C4 amended: the recomputed tax is (subtotal - discount) times 0.08,
and it is nonnegative for percentage coupons with a discount value between
0 and 100 over schema-valid items; the evaluator does not cap discounts at
the subtotal, so a fixed discount above the subtotal makes the tax
negative. -/
theorem percentage_coupon_tax_nonneg (c : Cart)
    (hdt : c.coupon.discountType = DiscountType.percentage)
    (h0 : 0 ≤ c.coupon.discount) (hle : c.coupon.discount ≤ 100)
    (hitems : ∀ i ∈ c.items, 0 ≤ i.price ∧ 0 ≤ i.quantity) :
    0 ≤ c.calculateTotals.tax ∧
    c.calculateTotals.tax =
      (c.calculateTotals.subtotal - c.calculateTotals.discount) * 0.08 := by
  have hS : 0 ≤ cartSubtotal c.items := cartSubtotal_nonneg c.items hitems
  refine ⟨?_, rfl⟩
  simp only [Cart.calculateTotals]
  cases hc : c.coupon.code with
  | none =>
    simp only [hc]
    nlinarith [hS]
  | some s =>
    simp only [hc, hdt]
    nlinarith [hS, h0, hle]

/-- Witness for C4 amended at the sample percentage cart. -/
theorem percentage_coupon_tax_nonneg_witness :
    0 ≤ (({ sampleCart with
        coupon := ⟨some "SAVE10", 10, DiscountType.percentage⟩ }
      : Cart) : Cart).calculateTotals.tax :=
  (percentage_coupon_tax_nonneg
    { sampleCart with coupon := ⟨some "SAVE10", 10, DiscountType.percentage⟩ }
    rfl (by norm_num) (by norm_num)
    (by intro i hi
        simp only [sampleCart, sampleItem] at hi
        simp at hi
        subst hi
        norm_num [sampleItem])).1

/-- Percentage coupon scoped to products but with an empty allow-list. -/
def emptyScopeCoupon : Coupon :=
  { sampleCoupon with code := "P10", applyTo := ApplyTo.products }

/-- Counterexample for C5: with scope products and an empty allow-list, no
given product reference lies in the allow-list, yet calculateDiscount
still returns an applicable ten-dollar discount on a hundred-dollar
subtotal because the scope check is skipped for an empty list. -/
theorem scope_check_skipped_for_empty_allowlist :
    emptyScopeCoupon.applyTo = ApplyTo.products ∧
    emptyScopeCoupon.applicableProducts = [] ∧
    emptyScopeCoupon.calculateDiscount 100 [7] [] =
      DiscountResult.applicable 10 90 := by
  refine ⟨rfl, rfl, ?_⟩
  norm_num [Coupon.calculateDiscount, Coupon.rawDiscount,
    Coupon.percentageDiscount, roundCents, emptyScopeCoupon, sampleCoupon]

/-- Scope gate of calculateDiscount: neither the products check nor the
categories check fires. -/
def scopeApplicable (c : Coupon) (pids cids : List Nat) : Prop :=
  ¬ (c.applyTo = ApplyTo.products ∧ c.applicableProducts ≠ [] ∧
      ¬ pids.any (fun i => c.applicableProducts.contains i)) ∧
  ¬ (c.applyTo = ApplyTo.categories ∧ c.applicableCategories ≠ [] ∧
      ¬ cids.any (fun i => c.applicableCategories.contains i))

/-- C5 amended: calculateDiscount fails on scope products exactly when the
allow-list is nonempty and meets none of the given product references
(symmetrically for categories), fails when the subtotal is below the
minimum purchase, and otherwise returns the raw discount rounded to cents,
where the raw discount is subtotal times discountValue over 100 capped at
maximumDiscount when that field is set and nonzero (percentage type) or
the flat discountValue (fixed type), uncapped by the subtotal. -/
theorem calculateDiscount_characterized (c : Coupon) (s : Rat)
    (pids cids : List Nat) :
    (c.applyTo = ApplyTo.products → c.applicableProducts ≠ [] →
      ¬ pids.any (fun i => c.applicableProducts.contains i) →
      c.calculateDiscount s pids cids =
        DiscountResult.notApplicable
          "Coupon not applicable to these products") ∧
    (c.applyTo = ApplyTo.categories → c.applicableCategories ≠ [] →
      ¬ cids.any (fun i => c.applicableCategories.contains i) →
      c.calculateDiscount s pids cids =
        DiscountResult.notApplicable
          "Coupon not applicable to these categories") ∧
    (scopeApplicable c pids cids → s < c.minimumPurchase →
      c.calculateDiscount s pids cids =
        DiscountResult.notApplicable
          ("Minimum purchase of $" ++ toString c.minimumPurchase
            ++ " required")) ∧
    (scopeApplicable c pids cids → ¬ s < c.minimumPurchase →
      c.calculateDiscount s pids cids =
        DiscountResult.applicable (roundCents (c.rawDiscount s))
          (s - c.rawDiscount s)) := by
  refine ⟨?_, ?_, ?_, ?_⟩
  · intro h1 h2 h3
    unfold Coupon.calculateDiscount
    rw [if_pos ⟨h1, h2, h3⟩]
  · intro h1 h2 h3
    unfold Coupon.calculateDiscount
    rw [if_neg (by rintro ⟨hp, -, -⟩; rw [h1] at hp; exact absurd hp (by simp)),
      if_pos ⟨h1, h2, h3⟩]
  · intro hscope hs
    unfold Coupon.calculateDiscount
    rw [if_neg hscope.1, if_neg hscope.2, if_pos hs]
  · intro hscope hs
    unfold Coupon.calculateDiscount
    rw [if_neg hscope.1, if_neg hscope.2, if_neg hs]

/-- Witness for C5 amended: the fifty-dollar fixed coupon evaluates on a
thirty-dollar subtotal to its raw discount rounded to cents. -/
theorem calculateDiscount_characterized_witness :
    flatFiftyCoupon.calculateDiscount 30 [] [] =
      DiscountResult.applicable (roundCents (flatFiftyCoupon.rawDiscount 30))
        (30 - flatFiftyCoupon.rawDiscount 30) :=
  (calculateDiscount_characterized flatFiftyCoupon 30 [] []).2.2.2
    (by constructor <;> rintro ⟨hp, -, -⟩ <;>
      simp [flatFiftyCoupon, sampleCoupon] at hp)
    (by norm_num [flatFiftyCoupon, sampleCoupon])

theorem find?_setFirstSku (inv : List InventoryRecord) (sku : String)
    (f : Int → Int) :
    (setFirstSku inv sku f).find? (fun r => r.sku = sku) =
      (inv.find? (fun r => r.sku = sku)).map
        (fun r => { r with quantity := f r.quantity }) := by
  induction inv with
  | nil => rfl
  | cons r rest ih =>
    by_cases h : r.sku = sku
    · simp [setFirstSku, h, List.find?]
    · simp [setFirstSku, h, List.find?, ih]

/-- C2: the checkout decrement sets the quantity of the SKU to the maximum
of zero and quantity minus requested, hence nonnegative, and each of the
three inventory mutations (checkout decrement, cancellation restore, admin
overwrite) recomputes totalQuantity as the sum of the inventory record
quantities. -/
theorem inventory_stock_spec (p : Product) (sku : String) (q newQ q0 : Int)
    (h : findSkuQty p sku = some q0) :
    findSkuQty (p.updateStock sku q) sku = some (max 0 (q0 - q)) ∧
    0 ≤ max 0 (q0 - q) ∧
    (p.updateStock sku q).totalQuantity =
      invTotal (p.updateStock sku q).inventory ∧
    (restoreProductStock p sku q).totalQuantity =
      invTotal (restoreProductStock p sku q).inventory ∧
    (∀ p', adminUpdateStock p sku newQ = some p' →
      findSkuQty p' sku = some newQ ∧
      p'.totalQuantity = invTotal p'.inventory) := by
  obtain ⟨r0, hf, hq0⟩ :
      ∃ r0, p.inventory.find? (fun r => r.sku = sku) = some r0 ∧
        r0.quantity = q0 := by
    unfold findSkuQty at h
    cases hf : p.inventory.find? (fun r => r.sku = sku) with
    | none => rw [hf] at h; simp at h
    | some r0 =>
      rw [hf] at h
      simp only [Option.map_some'] at h
      exact ⟨r0, rfl, Option.some.inj h⟩
  refine ⟨?_, le_max_left 0 _, ?_, ?_, ?_⟩
  · simp only [Product.updateStock, hf]
    unfold findSkuQty
    simp [find?_setFirstSku, hf, hq0]
  · simp only [Product.updateStock, hf]
  · simp only [restoreProductStock, hf]
  · intro p' hp'
    simp only [adminUpdateStock, hf] at hp'
    obtain rfl := Option.some.inj hp'
    constructor
    · unfold findSkuQty
      simp [find?_setFirstSku, hf]
    · rfl

/-- Sample product with two SKUs for the inventory witnesses. -/
def sampleProduct : Product := ⟨7, 20, [⟨"SKU1", 5⟩, ⟨"SKU2", 2⟩], 7, 3⟩

/-- Witness for C2: decrementing eight units of a five-unit SKU floors the
quantity at zero and totalQuantity equals the inventory sum. -/
theorem inventory_stock_witness :
    findSkuQty (sampleProduct.updateStock "SKU1" 8) "SKU1"
      = some (max 0 (5 - 8)) ∧
    (sampleProduct.updateStock "SKU1" 8).totalQuantity =
      invTotal (sampleProduct.updateStock "SKU1" 8).inventory :=
  ⟨(inventory_stock_spec sampleProduct "SKU1" 8 9 5 rfl).1,
    (inventory_stock_spec sampleProduct "SKU1" 8 9 5 rfl).2.2.1⟩

/-- C8: for a nonempty cart, the applyCoupon handler runs isValid,
canUserUse and calculateDiscount in that order, each failure returning the
specific reason with the cart unchanged; on success it stores code,
discountValue and discountType on the cart and the save recomputes the
totals; whenever the outcome is a failure the cart is unchanged. -/
theorem applyCoupon_controller_spec (cart : Cart) (c : Coupon)
    (userId : Nat) (now : Int) (hne : cart.items ≠ []) :
    (∀ r, c.isValid now = CheckResult.fail r →
      applyCouponController cart (some c) userId now = ⟨false, r, cart⟩) ∧
    (∀ r, c.isValid now = CheckResult.ok →
      c.canUserUse userId = CheckResult.fail r →
      applyCouponController cart (some c) userId now = ⟨false, r, cart⟩) ∧
    (∀ r, c.isValid now = CheckResult.ok →
      c.canUserUse userId = CheckResult.ok →
      c.calculateDiscount cart.subtotal
          (cart.items.map (fun i => i.product)) [] =
        DiscountResult.notApplicable r →
      applyCouponController cart (some c) userId now = ⟨false, r, cart⟩) ∧
    (∀ d ft, c.isValid now = CheckResult.ok →
      c.canUserUse userId = CheckResult.ok →
      c.calculateDiscount cart.subtotal
          (cart.items.map (fun i => i.product)) [] =
        DiscountResult.applicable d ft →
      applyCouponController cart (some c) userId now =
        ⟨true, "Coupon applied successfully",
          ({ cart with
            coupon := ⟨some c.code, c.discountValue, c.discountType⟩ }
            : Cart).calculateTotals⟩) ∧
    ((applyCouponController cart (some c) userId now).ok = false →
      (applyCouponController cart (some c) userId now).cart = cart) := by
  refine ⟨?_, ?_, ?_, ?_, ?_⟩
  · intro r hv
    simp [applyCouponController, if_neg hne, hv]
  · intro r hv hu
    simp [applyCouponController, if_neg hne, hv, hu]
  · intro r hv hu hd
    simp [applyCouponController, if_neg hne, hv, hu, hd]
  · intro d ft hv hu hd
    simp [applyCouponController, if_neg hne, hv, hu, hd]
  · intro hok
    simp only [applyCouponController, if_neg hne] at hok ⊢
    cases hv : c.isValid now with
    | fail r => simp [hv]
    | ok =>
      cases hu : c.canUserUse userId with
      | fail r => simp [hv, hu]
      | ok =>
        cases hd : c.calculateDiscount cart.subtotal
            (cart.items.map (fun i => i.product)) [] with
        | notApplicable r => simp [hv, hu, hd]
        | applicable d ft =>
          rw [hv, hu, hd] at hok
          simp at hok

/-- Coupon with a per-user limit of one already used once by user 1. -/
def perUserCoupon : Coupon :=
  { sampleCoupon with
    code := "ONCE"
    usageLimitPerUser := some 1
    usageCount := 1
    usedBy := [⟨1, 1⟩] }

/-- Witness for C8, the per-user scenario: a second application by the same
user fails with the per-user reason and the cart is unchanged. -/
theorem applyCoupon_controller_witness :
    applyCouponController tenDollarCart (some perUserCoupon) 1 50 =
      ⟨false, "Per-user limit reached", tenDollarCart⟩ :=
  (applyCoupon_controller_spec tenDollarCart perUserCoupon 1 50
      (by simp [tenDollarCart])).2.1 "Per-user limit reached"
    (by simp [Coupon.isValid, perUserCoupon, sampleCoupon])
    (by simp [Coupon.canUserUse, perUserCoupon, sampleCoupon, List.find?])

theorem restoreProductStock_id (p : Product) (sku : String) (q : Int) :
    (restoreProductStock p sku q).id = p.id := by
  cases hf : p.inventory.find? (fun r => r.sku = sku) with
  | none => simp only [restoreProductStock, hf]
  | some r => simp only [restoreProductStock, hf]

theorem lookup_updateById_ne (ps : List Product) (pid pid' : Nat)
    (f : Product → Product) (hf : ∀ p, (f p).id = p.id) (h : pid ≠ pid') :
    lookupProduct (updateById ps pid' f) pid = lookupProduct ps pid := by
  induction ps with
  | nil => rfl
  | cons p rest ih =>
    by_cases hp : p.id = pid'
    · have hid : ¬ ((f p).id = pid) := by
        rw [hf p, hp]
        exact fun he => h he.symm
      have hid2 : ¬ (p.id = pid) := by
        rw [hp]
        exact fun he => h he.symm
      simp only [updateById, if_pos hp, lookupProduct]
      rw [List.find?_cons_of_neg _ (by simpa using hid),
        List.find?_cons_of_neg _ (by simpa using hid2)]
    · simp only [updateById, if_neg hp, lookupProduct]
      by_cases hpp : p.id = pid
      · rw [List.find?_cons_of_pos _ (by simpa using hpp),
          List.find?_cons_of_pos _ (by simpa using hpp)]
      · rw [List.find?_cons_of_neg _ (by simpa using hpp),
          List.find?_cons_of_neg _ (by simpa using hpp)]
        exact ih

theorem lookup_updateById_eq (ps : List Product) (pid : Nat)
    (f : Product → Product) (hf : ∀ p, (f p).id = p.id) :
    lookupProduct (updateById ps pid f) pid =
      (lookupProduct ps pid).map f := by
  induction ps with
  | nil => rfl
  | cons p rest ih =>
    by_cases hp : p.id = pid
    · simp only [updateById, if_pos hp, lookupProduct]
      rw [List.find?_cons_of_pos _ (by simp [hf p, hp]),
        List.find?_cons_of_pos _ (by simp [hp])]
      simp
    · simp only [updateById, if_neg hp, lookupProduct]
      rw [List.find?_cons_of_neg _ (by simp [hp]),
        List.find?_cons_of_neg _ (by simp [hp])]
      exact ih

theorem restoreAll_cons (ps : List Product) (hd : OrderItem)
    (tl : List OrderItem) :
    restoreAll ps (hd :: tl) =
      restoreAll
        (updateById ps hd.product
          (fun p => restoreProductStock p hd.sku hd.quantity)) tl := rfl

theorem lookup_restoreAll_notin (items : List OrderItem) (ps : List Product)
    (pid : Nat) (h : ∀ item ∈ items, item.product ≠ pid) :
    lookupProduct (restoreAll ps items) pid = lookupProduct ps pid := by
  induction items generalizing ps with
  | nil => rfl
  | cons hd tl ih =>
    rw [restoreAll_cons,
      ih _ (fun x hx => h x (List.mem_cons_of_mem hd hx)),
      lookup_updateById_ne ps pid hd.product _
        (fun p => restoreProductStock_id p hd.sku hd.quantity)
        (h hd (List.mem_cons_self hd tl)).symm]

theorem lookup_restoreAll_mem (items : List OrderItem) (ps : List Product)
    (item : OrderItem) (hmem : item ∈ items)
    (hnodup : (items.map (fun i => i.product)).Nodup) :
    lookupProduct (restoreAll ps items) item.product =
      (lookupProduct ps item.product).map
        (fun p => restoreProductStock p item.sku item.quantity) := by
  induction items generalizing ps with
  | nil => cases hmem
  | cons hd tl ih =>
    rw [restoreAll_cons]
    rcases List.mem_cons.mp hmem with rfl | hmem'
    · have hnotin : ∀ x ∈ tl, x.product ≠ item.product := by
        intro x hx he
        exact (List.nodup_cons.mp hnodup).1
          (List.mem_map.mpr ⟨x, hx, he⟩)
      rw [lookup_restoreAll_notin tl _ _ hnotin]
      exact lookup_updateById_eq ps item.product _
        (fun p => restoreProductStock_id p item.sku item.quantity)
    · have hne : item.product ≠ hd.product := by
        intro he
        exact (List.nodup_cons.mp hnodup).1
          (List.mem_map.mpr ⟨item, hmem', he⟩)
      rw [ih _ hmem' (List.nodup_cons.mp hnodup).2,
        lookup_updateById_ne ps item.product hd.product _
          (fun p => restoreProductStock_id p hd.sku hd.quantity) hne]

theorem restoreProductStock_effect (p : Product) (sku : String) (q q0 : Int)
    (h : findSkuQty p sku = some q0) :
    findSkuQty (restoreProductStock p sku q) sku = some (q0 + q) ∧
    (restoreProductStock p sku q).salesCount = p.salesCount - q := by
  obtain ⟨r0, hf, hq0⟩ :
      ∃ r0, p.inventory.find? (fun r => r.sku = sku) = some r0 ∧
        r0.quantity = q0 := by
    unfold findSkuQty at h
    cases hf : p.inventory.find? (fun r => r.sku = sku) with
    | none => rw [hf] at h; simp at h
    | some r0 =>
      rw [hf] at h
      simp only [Option.map_some'] at h
      exact ⟨r0, rfl, Option.some.inj h⟩
  constructor
  · simp only [restoreProductStock, hf]
    unfold findSkuQty
    simp [find?_setFirstSku, hf, hq0]
  · simp only [restoreProductStock, hf]

/-- C6: cancellation succeeds only from pending or processing; from any
other status the handler returns the state error and the products and the
order are unchanged; on success the order status becomes cancelled with
exactly one appended timeline entry, and (for distinct product references)
every resolving line item has its SKU quantity increased by the item
quantity and its product salesCount decreased by the same amount. -/
theorem cancelOrder_spec (products : List Product) (o : Order)
    (reason : String) (userId : Nat) :
    (o.status ≠ OrderStatus.pending → o.status ≠ OrderStatus.processing →
      cancelOrder products o reason userId =
        ⟨false, "Cannot cancel order with status: " ++ statusName o.status,
          products, o⟩) ∧
    ((o.status = OrderStatus.pending ∨ o.status = OrderStatus.processing) →
      (cancelOrder products o reason userId).ok = true ∧
      (cancelOrder products o reason userId).order.status =
        OrderStatus.cancelled ∧
      (cancelOrder products o reason userId).order.timeline.length =
        o.timeline.length + 1 ∧
      ((o.items.map (fun i => i.product)).Nodup →
        ∀ item ∈ o.items, ∀ p q0,
          lookupProduct products item.product = some p →
          findSkuQty p item.sku = some q0 →
          ∃ p', lookupProduct (cancelOrder products o reason userId).products
              item.product = some p' ∧
            findSkuQty p' item.sku = some (q0 + item.quantity) ∧
            p'.salesCount = p.salesCount - item.quantity)) := by
  constructor
  · intro h1 h2
    unfold cancelOrder
    rw [if_neg (by rintro (h | h) <;> contradiction)]
  · intro hst
    simp only [cancelOrder, if_pos hst]
    refine ⟨by simp, by simp [Order.cancel], by simp [Order.cancel], ?_⟩
    intro hnodup item hmem p q0 hp hq
    rw [lookup_restoreAll_mem o.items products item hmem hnodup, hp]
    exact ⟨restoreProductStock p item.sku item.quantity, rfl,
      (restoreProductStock_effect p item.sku item.quantity q0 hq).1,
      (restoreProductStock_effect p item.sku item.quantity q0 hq).2⟩

/-- Pending one-item order referencing the sample product. -/
def sampleOrder : Order :=
  ⟨OrderStatus.pending, [⟨7, "SKU1", 3⟩],
    [⟨OrderStatus.pending, "Order placed", none⟩]⟩

/-- Witness for C6: cancelling the pending sample order restores three
units of the SKU and decrements salesCount by three. -/
theorem cancelOrder_witness :
    ∃ p', lookupProduct
        (cancelOrder [sampleProduct] sampleOrder "no longer needed" 9).products
        7 = some p' ∧
      findSkuQty p' "SKU1" = some (5 + 3) ∧
      p'.salesCount = 3 - 3 :=
  ((cancelOrder_spec [sampleProduct] sampleOrder "no longer needed" 9).2
      (Or.inl rfl)).2.2.2 (by simp [sampleOrder])
    ⟨7, "SKU1", 3⟩ (by simp [sampleOrder]) sampleProduct 5 rfl rfl

end ECom
